import Mathlib

/-!
BlockBank frontend: session and authorization layer.

A shallow embedding of `src/frontend/src/App.js`: the session state owned by
`App` (`user`, `token`, `loading`), the two `localStorage` entries it persists,
the `Authorization` default header of the HTTP client, the operations
`initAuth`, `login`, `logout`, and the route guard `ProtectedRoute`.

React state setters are modelled as plain state updates: a handler maps the
committed state before the call to the committed state after it.
-/

namespace BlockBank

/-! ## Data model -/

/-- Modelled from the spec: the user record, whose declaration lives in the remote API and
is absent from the sources. The spec lists the fields `id`, `name`, `email`, `role`. -/
structure User where
  id : String
  name : String
  email : String
  role : String
deriving DecidableEq, Repr

/-- Outcome of `JSON.parse` on a stored user entry: it throws, or it returns a value that is
either `null` (`none`) or a user record. -/
inductive Parsed where
  | threw
  | value (u : Option User)
deriving DecidableEq, Repr

/-- The two JSON built-ins used by `App.js`. They belong to the JavaScript runtime, not to the
repository, and are taken as a parameter. -/
structure Json where
  /-- The built-in `JSON.stringify(user)`. -/
  stringify : User → String
  /-- The built-in `JSON.parse(storedUser)`. -/
  parse : String → Parsed

/-- The keys of `localStorage` that the application uses. -/
inductive Key where
  | token
  | user
deriving DecidableEq, Repr

/-- The part of `localStorage` the application touches: the entries `'token'` and `'user'`.
An entry is `none` when `getItem` returns `null`. -/
structure Storage where
  token : Option String
  user : Option String
deriving DecidableEq, Repr

/-- The call `localStorage.getItem(key)`. -/
def Storage.getItem (s : Storage) : Key → Option String
  | .token => s.token
  | .user => s.user

/-- The call `localStorage.setItem(key, value)`. -/
def Storage.setItem (s : Storage) : Key → String → Storage
  | .token, v => { s with token := some v }
  | .user, v => { s with user := some v }

/-- The call `localStorage.removeItem(key)`. -/
def Storage.removeItem (s : Storage) : Key → Storage
  | .token => { s with token := none }
  | .user => { s with user := none }

/-- JavaScript truthiness of the result of `getItem`: `null` and the empty string are falsy. -/
def truthy : Option String → Bool
  | none => false
  | some s => s != ""

/-- The React state of `App`: `user`, `token`, `loading`. -/
structure Session where
  user : Option User
  token : Option String
  loading : Bool
deriving DecidableEq, Repr

/-- Everything the session code reads or writes: the React state, `localStorage`, and the
binding `axios.defaults.headers.common['Authorization']` (`none` when the key is not set). -/
structure World where
  session : Session
  store : Storage
  authorization : Option String
deriving DecidableEq, Repr

/-! ## Session controller (`App`, lines 55-96) -/

/-- The state `App` is constructed with (lines 56-58): `user = null`, `token` read from
`localStorage`, `loading = true`. The HTTP client starts with no `Authorization` default. -/
def App (store : Storage) : World :=
  { session := { user := none, token := store.getItem Key.token, loading := true }
    store := store
    authorization := none }

/-- The effect body `initAuth` (lines 61-77). `setToken(storedToken)` runs before
`JSON.parse` is evaluated, so it has taken place when the parse throws. -/
def initAuth (J : Json) (w : World) : World :=
  let storedToken := w.store.getItem Key.token
  let storedUser := w.store.getItem Key.user
  let w1 : World :=
    if truthy storedToken && truthy storedUser then
      match J.parse (storedUser.getD "") with
      | Parsed.value u =>
        { w with
          session := { w.session with token := storedToken, user := u }
          authorization := some ("Bearer " ++ storedToken.getD "") }
      | Parsed.threw =>
        { w with
          session := { w.session with token := storedToken }
          store := (w.store.removeItem Key.token).removeItem Key.user }
    else w
  { w1 with session := { w1.session with loading := false } }

/-- The handler `login(token, user)` (lines 82-88). -/
def login (J : Json) (w : World) (token : String) (user : User) : World :=
  let store1 := w.store.setItem Key.token token
  let store2 := store1.setItem Key.user (J.stringify user)
  { session := { w.session with token := some token, user := some user }
    store := store2
    authorization := some ("Bearer " ++ token) }

/-- The handler `logout()` (lines 90-96). -/
def logout (w : World) : World :=
  let store1 := w.store.removeItem Key.token
  let store2 := store1.removeItem Key.user
  { session := { w.session with token := none, user := none }
    store := store2
    authorization := none }

/-! ## Route guard (`ProtectedRoute`, lines 36-52) -/

/-- What `ProtectedRoute` returns: the loading placeholder, a `<Navigate>` element, or the
children it was given. -/
inductive Element (α : Type) where
  | loadingView
  | navigate (target : String) (replace : Bool)
  | children (c : α)
deriving DecidableEq, Repr

/-- The component `ProtectedRoute` (lines 36-52). `requireAdmin` is `none` when the route does
not pass the prop, in which case the destructuring default `false` applies. -/
def ProtectedRoute {α : Type} (s : Session) (children : α) (requireAdmin : Option Bool) :
    Element α :=
  let requireAdmin := requireAdmin.getD false
  if s.loading then Element.loadingView
  else
    match s.user with
    | none => Element.navigate "/login" true
    | some user =>
      if requireAdmin && user.role != "admin" then Element.navigate "/dashboard" true
      else Element.children children

/-! ## Reference policy of the route guard, as worded in the specification -/

/-- The four decisions named by the specification. -/
inductive Decision where
  | Render
  | RedirectToLoading
  | RedirectToLogin
  | RedirectToRoleFallback
deriving DecidableEq, Repr

/-- The policy of the specification (section 4.4), rules 1 to 4 in precedence order. -/
def guardPolicy (loading : Bool) (user : Option User) (requiresAdmin : Bool) : Decision :=
  if loading then Decision.RedirectToLoading
  else if user.isNone then Decision.RedirectToLogin
  else if requiresAdmin ∧ (user.map User.role) ≠ some "admin" then
    Decision.RedirectToRoleFallback
  else Decision.Render

/-- The element that realises a decision: the neutral loading view, the redirect to `/login`,
the redirect to `/dashboard`, or the children. -/
def Decision.realise {α : Type} (children : α) : Decision → Element α
  | Decision.Render => Element.children children
  | Decision.RedirectToLoading => Element.loadingView
  | Decision.RedirectToLogin => Element.navigate "/login" true
  | Decision.RedirectToRoleFallback => Element.navigate "/dashboard" true

/-! ## Runs of the session controller -/

/-- The operations that change the session: the mount effect, `login(token, user)` with a
token string and a user record, and `logout()`. -/
inductive Action where
  | init
  | login (token : String) (user : User)
  | logout
deriving DecidableEq, Repr

/-- One operation applied to a state. -/
def step (J : Json) (w : World) : Action → World
  | Action.init => initAuth J w
  | Action.login token user => login J w token user
  | Action.logout => logout w

/-- The state reached from the construction of `App` over `store` by a sequence of
operations, applied in order. -/
def run (J : Json) (store : Storage) (actions : List Action) : World :=
  actions.foldl (step J) (App store)

/-- A process restart: the React state and the HTTP client defaults are lost, `localStorage`
survives, and the mount effect runs to completion on the fresh `App`. -/
def restart (J : Json) (w : World) : World :=
  initAuth J (App w.store)

/-! ## A sample JSON codec for concrete evaluations

`sampleJson` writes a user record as the JSON text of an object with the four string
fields, and reads back exactly such texts and `null`. It is one possible value of the
parameter `Json`; on the inputs used below it agrees with the JavaScript built-ins. -/

/-- Escape the double quote and the backslash inside a JSON string literal. -/
def escapeChars : List Char → List Char
  | [] => []
  | c :: cs =>
    if c = '"' ∨ c = '\\' then '\\' :: c :: escapeChars cs else c :: escapeChars cs

/-- A JSON string literal. -/
def quote (s : String) : List Char :=
  '"' :: (escapeChars s.data ++ ['"'])

/-- The sample `stringify`. -/
def sampleStringify (u : User) : String :=
  String.mk ("\x7b\"id\":".data ++ quote u.id ++ ",\"name\":".data ++ quote u.name
    ++ ",\"email\":".data ++ quote u.email ++ ",\"role\":".data ++ quote u.role
    ++ "\x7d".data)

/-- Strip a fixed text from the front of the input. -/
def expect : List Char → List Char → Option (List Char)
  | [], cs => some cs
  | _ :: _, [] => none
  | p :: ps, c :: cs => if p = c then expect ps cs else none

/-- Read a string literal after its opening quote: the characters up to the closing quote,
and the rest of the input. -/
def readString : List Char → Option (List Char × List Char)
  | [] => none
  | '"' :: cs => some ([], cs)
  | '\\' :: c :: cs =>
    if c = '"' ∨ c = '\\' then (readString cs).map (fun r => (c :: r.1, r.2)) else none
  | c :: cs => (readString cs).map (fun r => (c :: r.1, r.2))

/-- Read a field `"key":"value"` preceded by `opener`. -/
def readField (opener : String) (key : String) (cs : List Char) :
    Option (String × List Char) :=
  (expect (opener.data ++ quote key ++ [':', '"']) cs).bind
    (fun rest => (readString rest).map (fun r => (String.mk r.1, r.2)))

/-- The sample `parse`. -/
def sampleParse (s : String) : Parsed :=
  if s = "null" then Parsed.value none
  else
    let r : Option User :=
      (readField "\x7b" "id" s.data).bind fun (id, r1) =>
      (readField "," "name" r1).bind fun (name, r2) =>
      (readField "," "email" r2).bind fun (email, r3) =>
      (readField "," "role" r3).bind fun (role, r4) =>
      if r4 = ['\x7d'] then some { id := id, name := name, email := email, role := role }
      else none
    match r with
    | some u => Parsed.value (some u)
    | none => Parsed.threw

/-- The sample codec. -/
def sampleJson : Json :=
  { stringify := sampleStringify, parse := sampleParse }

/-- A sample user with the role `user`. -/
def alice : User :=
  { id := "u-1", name := "Alice \"Al\" Doe", email := "alice@example.com", role := "user" }


/-! ## Exceptions inside `login`

`login` has no `try`: when one of its calls throws, the statements before it have run and
the statements after it have not. The calls that can throw are the two `setItem` calls (for
instance when the storage quota is exceeded) and `JSON.stringify`. Which call throws is
decided by the runtime and is taken as a parameter. -/

/-- The calls of `login` that can throw. -/
inductive Fault where
  | setItemToken
  | stringifyUser
  | setItemUser
deriving DecidableEq, Repr

/-- How a handler ends: it returns, or an exception escapes it. Either way the state is the
one its completed statements have produced. -/
inductive Outcome where
  | returned (w : World)
  | threw (w : World)
deriving DecidableEq, Repr

/-- The handler `login(token, user)` (lines 82-88), statement by statement, with the call
`fault` throwing (`none`: no call throws). -/
def loginSteps (J : Json) (fault : Option Fault) (w : World) (token : String) (user : User) :
    Outcome :=
  if fault = some Fault.setItemToken then Outcome.threw w
  else
    let w1 : World := { w with store := w.store.setItem Key.token token }
    if fault = some Fault.stringifyUser then Outcome.threw w1
    else
      let text := J.stringify user
      if fault = some Fault.setItemUser then Outcome.threw w1
      else
        let w2 : World := { w1 with store := w1.store.setItem Key.user text }
        let w3 : World := { w2 with session := { w2.session with token := some token } }
        let w4 : World := { w3 with session := { w3.session with user := some user } }
        Outcome.returned { w4 with authorization := some ("Bearer " ++ token) }

/-- The invariant behind the header binding: when a user is in memory, the in-memory token
is present, the `Authorization` binding is `Bearer ` followed by it, and the token entry of
the store is either absent or that same token. -/
def Bound (w : World) : Prop :=
  w.session.user.isSome = true →
    (∃ t, w.session.token = some t ∧ w.authorization = some ("Bearer " ++ t))
      ∧ (w.store.getItem Key.token = none ∨ w.store.getItem Key.token = w.session.token)

/-! ## The hook `useAuth` (`App.js`, lines 27-33) -/

/-- The hook `useAuth`. The context is `none` when `useContext(AuthContext)` gives the default
`null`, and `some c` when a provider supplies the object `c` (an object is truthy). A thrown
`Error` is returned as its message. -/
def useAuth {α : Type} (context : Option α) : Except String α :=
  match context with
  | none => Except.error "useAuth must be used within AuthProvider"
  | some c => Except.ok c

/-! ## The route table (`App.js`, lines 103-177) -/

/-- The page components mounted by the routes. -/
inductive Page where
  | Home
  | Register
  | Login
  | Dashboard
  | Transactions
  | Blockchain
  | BlockDetail
  | AdminDashboard
  | About
  | Contact
deriving DecidableEq, Repr

/-- The three shapes of the `element` prop in the route table: the inline conditional of `/`
(lines 107-115), the inline conditional of `/register` and `/login` (lines 119-120), and a
page wrapped in `ProtectedRoute`, with the `requireAdmin` prop it passes, if any. -/
inductive RouteElement where
  | root
  | guestOnly (page : Page)
  | guarded (requireAdmin : Option Bool) (page : Page)
deriving DecidableEq, Repr

/-- The route table, in source order: the `path` and the `element` of each `<Route>`. -/
def routes : List (String × RouteElement) :=
  [ ("/", RouteElement.root),
    ("/register", RouteElement.guestOnly Page.Register),
    ("/login", RouteElement.guestOnly Page.Login),
    ("/dashboard", RouteElement.guarded none Page.Dashboard),
    ("/transactions", RouteElement.guarded none Page.Transactions),
    ("/blockchain", RouteElement.guarded none Page.Blockchain),
    ("/block/:blockId", RouteElement.guarded none Page.BlockDetail),
    ("/admin", RouteElement.guarded (some true) Page.AdminDashboard),
    ("/about", RouteElement.guarded none Page.About),
    ("/contact", RouteElement.guarded none Page.Contact) ]

/-- How a route element is gated: `some b` when it is wrapped in `ProtectedRoute`, with `b`
the value `requireAdmin` takes inside the guard, and `none` when it is not wrapped. -/
def RouteElement.gate : RouteElement → Option Bool
  | RouteElement.guarded requireAdmin _ => some (requireAdmin.getD false)
  | _ => none

/-- What a route element evaluates to in a session. `<Navigate to="/dashboard" />` in the
inline conditionals carries no `replace`. -/
def RouteElement.render (s : Session) : RouteElement → Element Page
  | RouteElement.root =>
    if s.loading then Element.loadingView
    else if s.user.isSome then Element.navigate "/dashboard" false
    else Element.children Page.Home
  | RouteElement.guestOnly page =>
    if s.user.isNone then Element.children page else Element.navigate "/dashboard" false
  | RouteElement.guarded requireAdmin page => ProtectedRoute s page requireAdmin

/-- The page finally shown when the router is at `path`, following at most `redirects`
`<Navigate>` elements; `none` when no page is shown within that many redirects (or the loading
placeholder is shown, or no route has that path). -/
def follow (s : Session) : Nat → String → Option Page
  | redirects, path =>
    match routes.lookup path with
    | none => none
    | some e =>
      match e.render s with
      | Element.children page => some page
      | Element.loadingView => none
      | Element.navigate target _ =>
        match redirects with
        | 0 => none
        | n + 1 => follow s n target

/-! ## The navigation bar (`Navigation.js`, lines 15-25) -/

/-- An entry of `navLinks`; the icon component is recorded by its name. -/
structure NavLink where
  path : String
  label : String
  icon : String
deriving DecidableEq, Repr

/-- The array method `splice(start, deleteCount, ...items)`, as the resulting array. -/
def splice {α : Type} (xs : List α) (start deleteCount : Nat) (items : List α) : List α :=
  xs.take start ++ items ++ xs.drop (start + deleteCount)

/-- The entry spliced in for administrators. -/
def adminLink : NavLink :=
  { path := "/admin", label := "Admin", icon := "Shield" }

/-- The array `navLinks` that `Navigation` renders for the session user (`user?.role` is
`undefined` when there is no user). -/
def navLinks (user : Option User) : List NavLink :=
  let navLinks : List NavLink :=
    [ { path := "/dashboard", label := "Dashboard", icon := "Home" },
      { path := "/transactions", label := "Transactions", icon := "Send" },
      { path := "/blockchain", label := "Blockchain", icon := "Layers" },
      { path := "/about", label := "About", icon := "Info" },
      { path := "/contact", label := "Contact", icon := "Phone" } ]
  if user.map User.role = some "admin" then splice navLinks 3 0 [adminLink] else navLinks

/-! ## Pagination of the blockchain page (`Blockchain.js`, lines 13, 141-159) -/

/-- The two pagination buttons. -/
inductive PageClick where
  | previous
  | next
deriving DecidableEq, Repr

/-- The initial value of the `page` state. -/
def initialPage : Int := 1

/-- The updater of each button: `Math.max(1, p - 1)` and `p + 1`. -/
def setPage (p : Int) : PageClick → Int
  | PageClick.previous => max 1 (p - 1)
  | PageClick.next => p + 1

/-- The page number after a sequence of clicks. -/
def pageAfter (clicks : List PageClick) : Int :=
  clicks.foldl setPage initialPage

/-! ## Contact messages (`Contact.js`, line 27; `AdminDashboard.js`, lines 235-237) -/

/-- The template literal sent by the contact form as the notification text. -/
def contactText (name email message : String) : String :=
  "Contact form submission from " ++ name ++ " (" ++ email ++ "): " ++ message

/-- The regular expressions needed here: a sequence of literal characters and capturing
groups `(.+)`. -/
inductive Item where
  | char (c : Char)
  | dotPlus
deriving DecidableEq, Repr

/-- The characters that `.` does not match in a JavaScript regular expression without the
`s` flag: the line terminators. -/
def isLineTerminator (c : Char) : Bool :=
  c = '\n' || c = '\r' || c = Char.ofNat 0x2028 || c = Char.ofNat 0x2029

/-- A greedy group `(.+)` followed by the rest of the pattern `k`: the group takes at least
one character, none of them a line terminator, and the longest capture for which `k` matches
the remaining input is tried first. `taken` is what the group has consumed so far. -/
def greedy (k : List Char → Option (List (List Char))) :
    List Char → List Char → Option (List (List Char))
  | _, [] => none
  | taken, x :: xs =>
    if isLineTerminator x then none
    else
      match greedy k (taken ++ [x]) xs with
      | some captures => some captures
      | none => (k xs).map (fun captures => (taken ++ [x]) :: captures)

/-- Match a pattern at the start of the input, with backtracking; the captures of its groups,
in order. -/
def matchHere : List Item → List Char → Option (List (List Char))
  | [], _ => some []
  | Item.char _ :: _, [] => none
  | Item.char c :: rest, x :: xs => if c = x then matchHere rest xs else none
  | Item.dotPlus :: rest, input => greedy (matchHere rest) [] input

/-- The method `text.match(pattern)` for a pattern without the `g` flag: the leftmost match. -/
def search (pattern : List Item) : List Char → Option (List (List Char))
  | [] => matchHere pattern []
  | x :: xs =>
    match matchHere pattern (x :: xs) with
    | some captures => some captures
    | none => search pattern xs

/-- The regular expression `/from (.+) \((.+)\): (.+)/`. -/
def contactPattern : List Item :=
  "from ".data.map Item.char ++ [Item.dotPlus] ++ " (".data.map Item.char ++ [Item.dotPlus]
    ++ "): ".data.map Item.char ++ [Item.dotPlus]

/-- The name, email and message text that a card of the admin dashboard shows for a contact
message; `none` when the text does not match and the card shows the raw text. -/
def parseContact (message : String) : Option (String × String × String) :=
  match search contactPattern message.data with
  | some [name, email, messageText] =>
    some (String.mk name, String.mk email, String.mk messageText)
  | _ => none

/-! ## Sending a transaction (`Transactions.js`, lines 40-103) -/

/-- A JavaScript number: `NaN`, an infinity, or a finite value. Only comparisons are made, so
a finite value is recorded as the rational it denotes. -/
inductive JsNumber where
  | nan
  | negInf
  | finite (q : ℚ)
  | posInf
deriving DecidableEq

/-- The comparison `a < b` of JavaScript: false when either side is `NaN`. -/
def JsNumber.lt : JsNumber → JsNumber → Bool
  | JsNumber.nan, _ => false
  | _, JsNumber.nan => false
  | JsNumber.negInf, JsNumber.negInf => false
  | JsNumber.negInf, _ => true
  | JsNumber.finite _, JsNumber.negInf => false
  | JsNumber.finite a, JsNumber.finite b => decide (a < b)
  | JsNumber.finite _, JsNumber.posInf => true
  | JsNumber.posInf, _ => false

/-- The comparison `a <= b` of JavaScript: false when either side is `NaN`. -/
def JsNumber.le : JsNumber → JsNumber → Bool
  | JsNumber.nan, _ => false
  | _, JsNumber.nan => false
  | JsNumber.negInf, _ => true
  | JsNumber.finite _, JsNumber.negInf => false
  | JsNumber.finite a, JsNumber.finite b => decide (a ≤ b)
  | JsNumber.finite _, JsNumber.posInf => true
  | JsNumber.posInf, JsNumber.posInf => true
  | JsNumber.posInf, _ => false

/-- An entry of the `wallets` state. -/
structure Wallet where
  wallet_address : String
deriving DecidableEq, Repr

/-- The `sendForm` state: the texts of the two inputs. -/
structure SendForm where
  receiverWallet : String
  amount : String
deriving DecidableEq, Repr

/-- A request issued by the transactions page. -/
inductive Request where
  | getBalance (address : String)
  | postSign (sender receiver : String) (amount : JsNumber) (timestamp : String) (nonce : Nat)
  | postCreate (sender receiver : String) (amount : JsNumber) (signature : String)
      (timestamp : String) (nonce : Nat)
  | getWallets
  | getHistory
deriving DecidableEq

/-- Whether a request is the sign request or the create request. -/
def Request.isSignOrCreate : Request → Bool
  | Request.postSign _ _ _ _ _ => true
  | Request.postCreate _ _ _ _ _ _ => true
  | _ => false

/-- A toast shown to the user. -/
inductive Toast where
  | error (message : String)
  | success (message : String)
deriving DecidableEq, Repr

/-- What the handler reads from outside the page: the built-in `parseFloat`, the clock
(`new Date().toISOString()` and `Date.now()`), and the answers of the remote API to the three
requests. A failed request is `Except.error detail`, with `detail` the value of
`error.response?.data?.detail` (`none` when undefined); the balance answer is the number that
`balanceRes.data.balance` denotes in the comparison `balance < amount`, which is `NaN` when
the field is missing or not numeric. -/
structure Outside where
  parseFloat : String → JsNumber
  timestamp : String
  nonce : Nat
  balance : Except (Option String) JsNumber
  sign : Except (Option String) String
  create : Except (Option String) Unit

/-- What one run of the handler does: the requests it issues, in order, and its toasts. -/
structure Trace where
  requests : List Request
  toasts : List Toast
deriving DecidableEq

/-- The toast of the `catch` block: `error.response?.data?.detail || 'Transaction failed'`. -/
def failureToast (detail : Option String) : Toast :=
  Toast.error (if truthy detail then detail.getD "" else "Transaction failed")

/-- The handler `handleSendTransaction` (lines 40-103). After a successful creation it calls
`fetchData`, which issues the wallets and history requests. -/
def handleSendTransaction (O : Outside) (wallets : List Wallet) (sendForm : SendForm) :
    Trace :=
  match wallets with
  | [] => { requests := [], toasts := [Toast.error "No wallet found"] }
  | wallet :: _ =>
    if sendForm.receiverWallet = "" ∨ sendForm.amount = "" then
      { requests := [], toasts := [Toast.error "Please fill all fields"] }
    else
      let amount := O.parseFloat sendForm.amount
      if amount.le (JsNumber.finite 0) then
        { requests := [], toasts := [Toast.error "Amount must be greater than 0"] }
      else
        let balanceReq := Request.getBalance wallet.wallet_address
        match O.balance with
        | Except.error detail => { requests := [balanceReq], toasts := [failureToast detail] }
        | Except.ok balance =>
          if balance.lt amount then
            { requests := [balanceReq], toasts := [Toast.error "Insufficient balance"] }
          else
            let signReq := Request.postSign wallet.wallet_address sendForm.receiverWallet
              amount O.timestamp O.nonce
            match O.sign with
            | Except.error detail =>
              { requests := [balanceReq, signReq], toasts := [failureToast detail] }
            | Except.ok signature =>
              let createReq := Request.postCreate wallet.wallet_address
                sendForm.receiverWallet amount signature O.timestamp O.nonce
              match O.create with
              | Except.error detail =>
                { requests := [balanceReq, signReq, createReq]
                  toasts := [failureToast detail] }
              | Except.ok _ =>
                { requests := [balanceReq, signReq, createReq, Request.getWallets,
                    Request.getHistory]
                  toasts :=
                    [Toast.success "Transaction sent successfully! Pending admin approval."] }

/-- Whether a number is finite (neither `NaN` nor an infinity). -/
def JsNumber.isFinite : JsNumber → Bool
  | JsNumber.finite _ => true
  | _ => false

/-- The texts the amount field can hold. The field is an `<input type="number">`
(`Transactions.js`, lines 168-176), whose value is the empty string or a valid floating-point
number, and on such a number `parseFloat` gives a finite value. -/
def isNumberInputValue (parseFloat : String → JsNumber) (text : String) : Bool :=
  text == "" || (parseFloat text).isFinite

/-! ## A sample `parseFloat` for concrete evaluations

`sampleParseFloat` reads an optional minus sign and the leading decimal digits, and gives
`NaN` when there is no digit. On the texts used below it agrees with the built-in. -/

/-- The number denoted by the leading decimal digits, with `acc` the value read so far;
`none` when `acc` is `none` and there is no leading digit. -/
def leadingDigits : Option Nat → List Char → Option Nat
  | acc, [] => acc
  | acc, c :: cs =>
    if c.isDigit then leadingDigits (some (acc.getD 0 * 10 + (c.toNat - 48))) cs else acc

/-- The sample `parseFloat`. -/
def sampleParseFloat (s : String) : JsNumber :=
  match s.data with
  | '-' :: cs =>
    match leadingDigits none cs with
    | some n => JsNumber.finite (-(n : ℚ))
    | none => JsNumber.nan
  | cs =>
    match leadingDigits none cs with
    | some n => JsNumber.finite (n : ℚ)
    | none => JsNumber.nan

/-- A sample outside world: balance 100, and the sign and create requests succeed. -/
def sampleOutside : Outside :=
  { parseFloat := sampleParseFloat
    timestamp := "2025-01-01T00:00:00.000Z"
    nonce := 1735689600000
    balance := Except.ok (JsNumber.finite 100)
    sign := Except.ok "signature-1"
    create := Except.ok () }

/-! ## Requests of the views -/

/-- A request as the HTTP client sends it: the method, the URL and the `Authorization` header
(`none` when the request carries none). -/
structure HttpRequest where
  method : String
  url : String
  authorization : Option String
deriving DecidableEq, Repr

/-- The client call `axios.get(url, { headers })` or `axios.post(url, data, { headers })`:
the headers of the call override `axios.defaults.headers.common`. `headers` is the
`Authorization` entry of the headers of the call, `none` when there is none. -/
def axiosRequest (w : World) (method url : String) (headers : Option String) : HttpRequest :=
  { method := method
    url := url
    authorization :=
      match headers with
      | some h => some h
      | none => w.authorization }

/-- The headers built in `Dashboard.fetchData` (`Dashboard.js`, lines 27-28). -/
def Dashboard.headers (w : World) : Option String :=
  let token := w.store.getItem Key.token
  if truthy token then some ("Bearer " ++ token.getD "") else none

/-- The requests of `Dashboard.fetchData` (`Dashboard.js`, lines 25-48). `API` is the base
URL imported from `config`; `firstWallet` is the address of the first wallet in the answer,
`none` when a request fails or the user has no wallet. -/
def Dashboard.fetchData (API : String) (w : World) (firstWallet : Option String) :
    List HttpRequest :=
  let headers := Dashboard.headers w
  [ axiosRequest w "GET" (API ++ "/wallet/my-wallets") headers,
    axiosRequest w "GET" (API ++ "/transaction/history") headers,
    axiosRequest w "GET" (API ++ "/stats") headers,
    axiosRequest w "GET" (API ++ "/notifications") headers ]
  ++ match firstWallet with
    | some address =>
      [axiosRequest w "GET" (API ++ "/wallet/balance?address=" ++ address) headers]
    | none => []

/-- The helper `getAuthHeaders` (`AdminDashboard.js`, lines 21-30); when the token entry is
falsy it also shows an error toast. -/
def AdminDashboard.getAuthHeaders (w : World) : Option String :=
  let token := w.store.getItem Key.token
  if !truthy token then none else some ("Bearer " ++ token.getD "")

/-- The requests of `AdminDashboard.fetchData` (`AdminDashboard.js`, lines 33-46). -/
def AdminDashboard.fetchData (API : String) (w : World) : List HttpRequest :=
  let headers := AdminDashboard.getAuthHeaders w
  [ axiosRequest w "GET" (API ++ "/admin/users") headers,
    axiosRequest w "GET" (API ++ "/stats") headers ]

/-- The request of `AdminDashboard.fetchNotifications` (lines 49-59). -/
def AdminDashboard.fetchNotifications (API : String) (w : World) : List HttpRequest :=
  let headers := AdminDashboard.getAuthHeaders w
  [axiosRequest w "GET" (API ++ "/notifications") headers]

/-- The requests of `AdminDashboard.approveTransactions` (lines 62-74): the approval request
and, when it succeeds, the requests of `fetchData`. -/
def AdminDashboard.approveTransactions (API : String) (w : World) (succeeded : Bool) :
    List HttpRequest :=
  let headers := AdminDashboard.getAuthHeaders w
  axiosRequest w "POST" (API ++ "/admin/approve-transactions") headers
    :: (if succeeded then AdminDashboard.fetchData API w else [])

/-- The request of `AdminDashboard.validateBlockchain` (lines 77-94). -/
def AdminDashboard.validateBlockchain (API : String) (w : World) : List HttpRequest :=
  let headers := AdminDashboard.getAuthHeaders w
  [axiosRequest w "GET" (API ++ "/blockchain/validate") headers]

/-- The requests of `Transactions.fetchData` (`Transactions.js`, lines 27-38). -/
def Transactions.fetchData (API : String) (w : World) : List HttpRequest :=
  [ axiosRequest w "GET" (API ++ "/wallet/my-wallets") none,
    axiosRequest w "GET" (API ++ "/transaction/history") none ]

/-- How the transactions page sends a request (`Transactions.js`, lines 30-31, 62, 77, 86):
each call passes no headers of its own. -/
def Request.send (API : String) (w : World) : Request → HttpRequest
  | Request.getBalance address =>
    axiosRequest w "GET" (API ++ "/wallet/balance?address=" ++ address) none
  | Request.postSign _ _ _ _ _ => axiosRequest w "POST" (API ++ "/transaction/sign") none
  | Request.postCreate _ _ _ _ _ _ =>
    axiosRequest w "POST" (API ++ "/transaction/create") none
  | Request.getWallets => axiosRequest w "GET" (API ++ "/wallet/my-wallets") none
  | Request.getHistory => axiosRequest w "GET" (API ++ "/transaction/history") none

/-- The request of `Blockchain.fetchBlocks` (`Blockchain.js`, lines 20-30) at page `page`. -/
def Blockchain.fetchBlocks (API : String) (w : World) (page : Int) : List HttpRequest :=
  [axiosRequest w "GET" (API ++ "/blockchain/view?page=" ++ toString page ++ "&limit=10") none]

/-- The request of `BlockDetail.fetchBlockDetail` (`BlockDetail.js`, lines 21-30). -/
def BlockDetail.fetchBlockDetail (API : String) (w : World) (blockId : String) :
    List HttpRequest :=
  [axiosRequest w "GET" (API ++ "/block/" ++ blockId) none]

/-- The request of `BlockDetail.verifyBlock` (`BlockDetail.js`, lines 32-46). -/
def BlockDetail.verifyBlock (API : String) (w : World) : List HttpRequest :=
  [axiosRequest w "GET" (API ++ "/blockchain/validate") none]

/-- The request of `Contact.handleSubmit` (`Contact.js`, lines 25-28). -/
def Contact.handleSubmit (API : String) (w : World) : List HttpRequest :=
  [axiosRequest w "POST" (API ++ "/notify/send") none]

/-- The operations of the views in the sources that issue requests or change the session:
the fetches and handlers of the pages, the submit handler of the login page, and the logout
button of the navigation bar. Each carries what it reads from outside the state. -/
inductive ViewOperation where
  | dashboardFetchData (firstWallet : Option String)
  | adminFetchData
  | adminFetchNotifications
  | adminApproveTransactions (succeeded : Bool)
  | adminValidateBlockchain
  | transactionsFetchData
  | transactionsSend (O : Outside) (wallets : List Wallet) (sendForm : SendForm)
  | blockchainFetchBlocks (page : Int)
  | blockDetailFetch (blockId : String)
  | blockDetailVerify
  | contactSubmit
  | loginSubmit (response : Option (String × User))
  | navigationLogout

/-- Whether the operation calls `localStorage.getItem('token')` itself: the operations of
`Dashboard` (line 27) and of `AdminDashboard` (through `getAuthHeaders`, line 22). -/
def ViewOperation.readsToken : ViewOperation → Bool
  | ViewOperation.dashboardFetchData _ => true
  | ViewOperation.adminFetchData => true
  | ViewOperation.adminFetchNotifications => true
  | ViewOperation.adminApproveTransactions _ => true
  | ViewOperation.adminValidateBlockchain => true
  | _ => false

/-- One view operation on a state: the requests it issues and the state it leaves. No page
calls `setItem`, `removeItem` or touches `axios.defaults`, so the state is the one before,
except that the login page calls `login(response.data.token, response.data.user)` after a
successful request (`Login.js`, lines 32-33; `response` is `none` when the request fails) and
the logout button calls `logout` (`Navigation.js`, line 68). -/
def ViewOperation.perform (J : Json) (API : String) (w : World) :
    ViewOperation → List HttpRequest × World
  | ViewOperation.dashboardFetchData firstWallet => (Dashboard.fetchData API w firstWallet, w)
  | ViewOperation.adminFetchData => (AdminDashboard.fetchData API w, w)
  | ViewOperation.adminFetchNotifications => (AdminDashboard.fetchNotifications API w, w)
  | ViewOperation.adminApproveTransactions succeeded =>
    (AdminDashboard.approveTransactions API w succeeded, w)
  | ViewOperation.adminValidateBlockchain => (AdminDashboard.validateBlockchain API w, w)
  | ViewOperation.transactionsFetchData => (Transactions.fetchData API w, w)
  | ViewOperation.transactionsSend O wallets sendForm =>
    ((handleSendTransaction O wallets sendForm).requests.map (Request.send API w), w)
  | ViewOperation.blockchainFetchBlocks page => (Blockchain.fetchBlocks API w page, w)
  | ViewOperation.blockDetailFetch blockId => (BlockDetail.fetchBlockDetail API w blockId, w)
  | ViewOperation.blockDetailVerify => (BlockDetail.verifyBlock API w, w)
  | ViewOperation.contactSubmit => (Contact.handleSubmit API w, w)
  | ViewOperation.loginSubmit response =>
    ([axiosRequest w "POST" (API ++ "/login") none],
      match response with
      | some (token, user) => login J w token user
      | none => w)
  | ViewOperation.navigationLogout => ([], logout w)

/-! ## Route guard: theorems -/

/-- C2: for every session state and every route requirement, `ProtectedRoute` returns the
element realising the reference policy (loading view, else redirect to `/login`, else
redirect to `/dashboard`, else the children). -/
theorem protectedRoute_eq_guardPolicy {α : Type} (s : Session) (children : α)
    (requireAdmin : Option Bool) :
    ProtectedRoute s children requireAdmin
      = (guardPolicy s.loading s.user (requireAdmin.getD false)).realise children := by
  obtain ⟨user, token, loading⟩ := s
  cases loading
  · cases user with
    | none => simp [ProtectedRoute, guardPolicy, Decision.realise]
    | some u =>
      cases h : requireAdmin.getD false
      · simp [ProtectedRoute, guardPolicy, Decision.realise, h]
      · by_cases hr : u.role = "admin"
        · simp [ProtectedRoute, guardPolicy, Decision.realise, h, hr]
        · simp [ProtectedRoute, guardPolicy, Decision.realise, h, hr]
  · simp [ProtectedRoute, guardPolicy, Decision.realise]


/-- C3: while `loading` is true `ProtectedRoute` returns the loading placeholder and never
its children, whatever the user and whatever `requireAdmin`. -/
theorem protectedRoute_loading_never_renders {α : Type} (s : Session) (children : α)
    (requireAdmin : Option Bool) (hloading : s.loading = true) :
    ProtectedRoute s children requireAdmin = Element.loadingView
      ∧ ∀ c : α, ProtectedRoute s children requireAdmin ≠ Element.children c := by
  have h : ProtectedRoute s children requireAdmin = Element.loadingView := by
    simp [ProtectedRoute, hloading]
  exact ⟨h, fun c hc => by rw [h] at hc; cases hc⟩

/-- The loading session constructed over a store with a token, on the admin route. -/
theorem protectedRoute_loading_never_renders_witness :
    ProtectedRoute (App { token := some "abc123", user := none }).session "Dashboard"
        (some true) = Element.loadingView
      ∧ ∀ c : String,
          ProtectedRoute (App { token := some "abc123", user := none }).session "Dashboard"
            (some true) ≠ Element.children c :=
  protectedRoute_loading_never_renders _ "Dashboard" (some true) rfl

/-- C4: in an Anonymous session (`loading = false`, no user) `ProtectedRoute` returns the
redirect to `/login`, with `requireAdmin` true, false or not passed. -/
theorem protectedRoute_anonymous_redirects_to_login {α : Type} (s : Session) (children : α)
    (requireAdmin : Option Bool) (hloading : s.loading = false) (huser : s.user = none) :
    ProtectedRoute s children requireAdmin = Element.navigate "/login" true := by
  simp [ProtectedRoute, hloading, huser]

/-- An Anonymous session on the admin route. -/
theorem protectedRoute_anonymous_redirects_to_login_witness :
    ProtectedRoute { user := none, token := none, loading := false } "AdminDashboard"
        (some true) = Element.navigate "/login" true :=
  protectedRoute_anonymous_redirects_to_login _ "AdminDashboard" (some true) rfl rfl

/-- C5: in an Authenticated session (`loading = false`, user present) whose role is not
`admin`, a route with `requireAdmin = true` yields the redirect to `/dashboard` and never
the children. -/
theorem protectedRoute_non_admin_redirects_to_dashboard {α : Type} (s : Session)
    (children : α) (user : User) (hloading : s.loading = false) (huser : s.user = some user)
    (hrole : user.role ≠ "admin") :
    ProtectedRoute s children (some true) = Element.navigate "/dashboard" true
      ∧ ∀ c : α, ProtectedRoute s children (some true) ≠ Element.children c := by
  have h : ProtectedRoute s children (some true) = Element.navigate "/dashboard" true := by
    simp [ProtectedRoute, hloading, huser, hrole]
  exact ⟨h, fun c hc => by rw [h] at hc; cases hc⟩

/-- A resolved session of a user with the role `user`, on the admin route. -/
theorem protectedRoute_non_admin_redirects_to_dashboard_witness :
    ProtectedRoute { user := some alice, token := some "abc123", loading := false }
        "AdminDashboard" (some true) = Element.navigate "/dashboard" true
      ∧ ∀ c : String,
          ProtectedRoute { user := some alice, token := some "abc123", loading := false }
            "AdminDashboard" (some true) ≠ Element.children c :=
  protectedRoute_non_admin_redirects_to_dashboard _ "AdminDashboard" alice rfl rfl
    (by decide)

/-- C6: in an Authenticated session (`loading = false`, user present), whatever the role, a
route with `requireAdmin` false (passed as false or not passed) yields the children
unchanged. -/
theorem protectedRoute_authenticated_renders {α : Type} (s : Session) (children : α)
    (user : User) (requireAdmin : Option Bool) (hloading : s.loading = false)
    (huser : s.user = some user) (hreq : requireAdmin.getD false = false) :
    ProtectedRoute s children requireAdmin = Element.children children := by
  simp [ProtectedRoute, hloading, huser, hreq]

/-- A resolved session of a user with the role `user`, on a route that does not pass `requireAdmin`. -/
theorem protectedRoute_authenticated_renders_witness :
    ProtectedRoute { user := some alice, token := some "abc123", loading := false }
        "Dashboard" none = Element.children "Dashboard" :=
  protectedRoute_authenticated_renders _ "Dashboard" alice none rfl rfl rfl

/-! ## Session controller: theorems -/

/-- The mount effect keeps "user present implies token present". -/
theorem initAuth_user_token (J : Json) (w : World)
    (h : w.session.user.isSome = true → w.session.token.isSome = true) :
    (initAuth J w).session.user.isSome = true
      → (initAuth J w).session.token.isSome = true := by
  unfold initAuth
  by_cases hg : (truthy (w.store.getItem Key.token) && truthy (w.store.getItem Key.user)) = true
  · have ht : (w.store.getItem Key.token).isSome = true := by
      cases hs : w.store.getItem Key.token with
      | none => simp [hs, truthy] at hg
      | some t => rfl
    simp only [hg, if_true]
    cases J.parse ((w.store.getItem Key.user).getD "") with
    | threw => intro _; exact ht
    | value u => intro _; exact ht
  · simpa [hg] using h

/-- Every operation keeps "user present implies token present". -/
theorem step_user_token (J : Json) (w : World) (a : Action)
    (h : w.session.user.isSome = true → w.session.token.isSome = true) :
    (step J w a).session.user.isSome = true
      → (step J w a).session.token.isSome = true := by
  cases a with
  | init => exact initAuth_user_token J w h
  | login token user => intro _; rfl
  | logout => intro hu; simp [step, logout] at hu

/-- The invariant holds along every sequence of operations from a state where it holds. -/
theorem foldl_user_token (J : Json) (actions : List Action) (w : World)
    (h : w.session.user.isSome = true → w.session.token.isSome = true) :
    (actions.foldl (step J) w).session.user.isSome = true
      → (actions.foldl (step J) w).session.token.isSome = true := by
  induction actions generalizing w with
  | nil => exact h
  | cons a rest ih => exact ih (step J w a) (step_user_token J w a h)

/-- C1, as stated, fails at construction: over a store that holds a saved session, `App`
starts with the token read from the store and no user. -/
theorem app_token_without_user :
    (run sampleJson { token := some "abc123", user := some (sampleStringify alice) }
        []).session.token = some "abc123"
      ∧ (run sampleJson { token := some "abc123", user := some (sampleStringify alice) }
        []).session.user = none
      ∧ ¬ ((run sampleJson { token := some "abc123", user := some (sampleStringify alice) }
            []).session.user = none
          ↔ (run sampleJson { token := some "abc123", user := some (sampleStringify alice) }
            []).session.token = none) := by
  decide

/-- C1, amended: in every reachable session state (construction over any store, then the
mount effect, `login` and `logout` in any order), if the in-memory user is present then the
in-memory token is present. -/
theorem reachable_user_implies_token (J : Json) (store : Storage) (actions : List Action)
    (huser : (run J store actions).session.user.isSome = true) :
    (run J store actions).session.token.isSome = true :=
  foldl_user_token J actions (App store) (fun h => by simp [App] at h) huser

/-- The state after the mount effect and a login over an empty store has a user, hence a token. -/
theorem reachable_user_implies_token_witness :
    (run sampleJson { token := none, user := none }
        [Action.init, Action.login "abc123" alice]).session.token.isSome = true :=
  reachable_user_implies_token sampleJson { token := none, user := none }
    [Action.init, Action.login "abc123" alice] (by decide)

/-- C7, as stated, fails for the empty token: after `login("", u)` the restart finds a falsy
token entry, skips the restoration and leaves the user absent. -/
theorem login_empty_token_not_restored :
    (restart sampleJson (login sampleJson (App { token := none, user := none }) ""
        alice)).session
      = { user := none, token := some "", loading := false } := by
  decide

/-- C7, amended: for every non-empty token `t` and every user record `u` whose JSON text is
non-empty and parses back to `u`, `login(t, u)` followed by a restart yields a session with
`user = u` and `token = t` (and `loading = false`). -/
theorem login_restart_roundtrip (J : Json) (w : World) (t : String) (u : User)
    (ht : t ≠ "") (hs : J.stringify u ≠ "")
    (hparse : J.parse (J.stringify u) = Parsed.value (some u)) :
    (restart J (login J w t u)).session
      = { user := some u, token := some t, loading := false } := by
  simp [restart, login, initAuth, App, Storage.getItem, Storage.setItem, truthy, ht, hs, hparse]

/-- A login with the token `abc123` over an empty store, then a restart, under the sample codec. -/
theorem login_restart_roundtrip_witness :
    (restart sampleJson (login sampleJson (App { token := none, user := none }) "abc123"
        alice)).session
      = { user := some alice, token := some "abc123", loading := false } :=
  login_restart_roundtrip sampleJson (App { token := none, user := none }) "abc123" alice
    (by decide) (by decide) (by decide)

/-- C8: over a store holding the token `abc123` and an unparsable user entry, the restart
ends with `loading = false` and no user, but the in-memory token is still `abc123`; the
store has been cleared and no header is bound. -/
theorem restart_corrupt_user_keeps_token :
    restart sampleJson
        { session := { user := none, token := none, loading := false }
          store := { token := some "abc123", user := some "\x7boops" }
          authorization := none }
      = { session := { user := none, token := some "abc123", loading := false }
          store := { token := none, user := none }
          authorization := none } := by
  decide

/-- C9, as stated, fails for the empty user entry: `JSON.parse` throws on it, but the guard
`storedToken && storedUser` is falsy, so the mount effect removes nothing. -/
theorem initAuth_empty_user_entry_not_cleared :
    sampleJson.parse "" = Parsed.threw
      ∧ (initAuth sampleJson (App { token := some "abc123", user := some "" })).store
          = { token := some "abc123", user := some "" } := by
  decide

/-- C9, amended: if the store holds a non-empty token and a non-empty user entry that cannot
be parsed, then after the mount effect both the token entry and the user entry have been
removed. -/
theorem initAuth_corrupt_user_clears_store (J : Json) (w : World) (t s : String)
    (htoken : w.store.getItem Key.token = some t) (huser : w.store.getItem Key.user = some s)
    (ht : t ≠ "") (hs : s ≠ "") (hparse : J.parse s = Parsed.threw) :
    (initAuth J w).store = { token := none, user := none } := by
  simp [initAuth, htoken, huser, truthy, ht, hs, hparse, Storage.removeItem]

/-- The mount effect over a store holding the token `abc123` and an unparsable user entry. -/
theorem initAuth_corrupt_user_clears_store_witness :
    (initAuth sampleJson (App { token := some "abc123", user := some "\x7boops" })).store
      = { token := none, user := none } :=
  initAuth_corrupt_user_clears_store sampleJson
    (App { token := some "abc123", user := some "\x7boops" }) "abc123" "\x7boops" rfl rfl
    (by decide) (by decide) (by decide)

/-- C10: from every prior state, after `login(t, u)` the store holds the token `t` and the
serialized `u`, the `Authorization` binding is `Bearer ` followed by `t`, the in-memory
session has `token = t` and `user = u`, and `loading` is unchanged. -/
theorem login_effects (J : Json) (w : World) (t : String) (u : User) :
    (login J w t u).store = { token := some t, user := some (J.stringify u) }
      ∧ (login J w t u).authorization = some ("Bearer " ++ t)
      ∧ (login J w t u).session.token = some t
      ∧ (login J w t u).session.user = some u
      ∧ (login J w t u).session.loading = w.session.loading := by
  simp [login, Storage.setItem]

/-- C11: from every state `logout()` leaves the in-memory user and token absent, both store
entries absent and no `Authorization` binding; it is a total function, so it never fails. -/
theorem logout_effects (w : World) :
    (logout w).session.user = none
      ∧ (logout w).session.token = none
      ∧ (logout w).store.getItem Key.token = none
      ∧ (logout w).store.getItem Key.user = none
      ∧ (logout w).authorization = none := by
  simp [logout, Storage.removeItem, Storage.getItem]

/-- C12: `logout` is idempotent: applied twice it gives exactly the state (session, store and
header binding) that one application gives. -/
theorem logout_idempotent (w : World) : logout (logout w) = logout w := by
  simp [logout, Storage.removeItem]

/-- With no fault `loginSteps` returns, with the state `login` computes. -/
theorem loginSteps_none (J : Json) (w : World) (t : String) (u : User) :
    loginSteps J none w t u = Outcome.returned (login J w t u) := by
  simp [loginSteps, login]

/-- C13, as stated, fails: when writing the user entry throws, the token entry already holds
the new token, so the store is not as it was before the call. -/
theorem login_fault_leaves_token_entry :
    loginSteps sampleJson (some Fault.setItemUser) (App { token := none, user := none })
        "abc123" alice
      = Outcome.threw
          { session := { user := none, token := none, loading := true }
            store := { token := some "abc123", user := none }
            authorization := none }
      ∧ loginSteps sampleJson (some Fault.setItemUser) (App { token := none, user := none })
        "abc123" alice
      ≠ Outcome.threw (App { token := none, user := none }) := by
  decide

/-- C13, amended: when a call of `login(token, user)` throws, the statements before it have
taken effect and no later one has. If the first write (the token entry) throws, the store,
the `Authorization` binding and the in-memory session are exactly as before; if serializing
the user or writing the user entry throws, the token entry holds the new token while the
user entry, the binding and the in-memory session are as before. -/
theorem login_fault_outcome (J : Json) (f : Fault) (w : World) (t : String) (u : User) :
    loginSteps J (some f) w t u
      = Outcome.threw
          (match f with
            | Fault.setItemToken => w
            | Fault.stringifyUser => { w with store := { w.store with token := some t } }
            | Fault.setItemUser => { w with store := { w.store with token := some t } }) := by
  cases f <;> simp [loginSteps, Storage.setItem]

/-- C14: `login` is last-write-wins: `login(t1, u1)` followed by `login(t2, u2)` gives exactly
the state (store, header binding, session) that `login(t2, u2)` alone gives. -/
theorem login_last_write_wins (J : Json) (w : World) (t1 t2 : String) (u1 u2 : User) :
    login J (login J w t1 u1) t2 u2 = login J w t2 u2 := by
  simp [login, Storage.setItem]

/-- C15, as stated, fails for the empty token: the guard `storedToken && storedUser` is
falsy, so the mount effect restores nothing although the user entry parses to a record. -/
theorem initAuth_empty_token_not_restored :
    sampleJson.parse (sampleStringify alice) = Parsed.value (some alice)
      ∧ initAuth sampleJson (App { token := some "", user := some (sampleStringify alice) })
        = { session := { user := none, token := some "", loading := false }
            store := { token := some "", user := some (sampleStringify alice) }
            authorization := none } := by
  decide

/-- C15, amended: if the store holds a non-empty token `t` and a non-empty user entry that
parses to a user record `u`, the mount effect ends with `loading = false`, `token = t`,
`user = u`, the `Authorization` binding `Bearer ` followed by `t`, and the store unchanged. -/
theorem initAuth_restores_session (J : Json) (w : World) (t s : String) (u : User)
    (htoken : w.store.getItem Key.token = some t) (huser : w.store.getItem Key.user = some s)
    (ht : t ≠ "") (hs : s ≠ "") (hparse : J.parse s = Parsed.value (some u)) :
    (initAuth J w).session = { user := some u, token := some t, loading := false }
      ∧ (initAuth J w).authorization = some ("Bearer " ++ t)
      ∧ (initAuth J w).store = w.store := by
  simp [initAuth, htoken, huser, truthy, ht, hs, hparse]

/-- The mount effect over a store holding the token `abc123` and the JSON text of a user. -/
theorem initAuth_restores_session_witness :
    (initAuth sampleJson
        (App { token := some "abc123", user := some (sampleStringify alice) })).session
        = { user := some alice, token := some "abc123", loading := false }
      ∧ (initAuth sampleJson
          (App { token := some "abc123", user := some (sampleStringify alice) })).authorization
        = some ("Bearer " ++ "abc123")
      ∧ (initAuth sampleJson
          (App { token := some "abc123", user := some (sampleStringify alice) })).store
        = (App { token := some "abc123", user := some (sampleStringify alice) }).store :=
  initAuth_restores_session sampleJson
    (App { token := some "abc123", user := some (sampleStringify alice) }) "abc123"
    (sampleStringify alice) alice rfl rfl (by decide) (by decide) (by decide)

/-- C16, as stated, fails when only the token entry is present: `App` is constructed with
that token and the mount effect does not reset it. -/
theorem restart_token_only_keeps_token :
    initAuth sampleJson (App { token := some "abc123", user := none })
      = { session := { user := none, token := some "abc123", loading := false }
          store := { token := some "abc123", user := none }
          authorization := none } := by
  decide

/-- C16, amended: if the token entry or the user entry of the store is absent, the session
after construction and the mount effect has `loading = false`, no user and no
`Authorization` binding, and its in-memory token is the token entry of the store (absent when
that entry is absent). -/
theorem restart_incomplete_pair (J : Json) (store : Storage)
    (hpair : store.getItem Key.token = none ∨ store.getItem Key.user = none) :
    (initAuth J (App store)).session
        = { user := none, token := store.getItem Key.token, loading := false }
      ∧ (initAuth J (App store)).authorization = none := by
  rcases hpair with h | h <;> simp [initAuth, App, h, truthy]

/-- Construction and the mount effect over a store holding only a user entry. -/
theorem restart_incomplete_pair_witness :
    (initAuth sampleJson (App { token := none, user := some (sampleStringify alice) })).session
        = { user := none, token := none, loading := false }
      ∧ (initAuth sampleJson
          (App { token := none, user := some (sampleStringify alice) })).authorization
        = none :=
  restart_incomplete_pair sampleJson { token := none, user := some (sampleStringify alice) }
    (Or.inl rfl)

/-- The mount effect ends with `loading = false` from every state. -/
theorem initAuth_loading (J : Json) (w : World) : (initAuth J w).session.loading = false := by
  simp [initAuth]

/-- C17: for every content of the store and every behaviour of `JSON.parse` (a value or a
throw), the mount effect is a total function of the constructed state, so no error reaches
its caller, and it ends with `loading = false`. -/
theorem restart_ends_loading (J : Json) (store : Storage) :
    (initAuth J (App store)).session.loading = false :=
  initAuth_loading J (App store)

/-- C18, as stated, fails over a store that holds a token: `App` is constructed with that
token in memory, not with an absent token. -/
theorem app_starts_with_stored_token :
    (App { token := some "abc123", user := none }).session
      = { user := none, token := some "abc123", loading := true }
    ∧ (App { token := some "abc123", user := none }).session.token ≠ none := by
  decide

/-- C18, amended: at process start, before the mount effect has run, `loading = true` and the
user is absent whatever the store contains; the in-memory token is the token entry of the
store, so it is absent exactly when the store holds no token entry. -/
theorem app_initial_session (store : Storage) :
    (App store).session.loading = true
      ∧ (App store).session.user = none
      ∧ (App store).session.token = store.getItem Key.token
      ∧ ((App store).session.token = none ↔ store.getItem Key.token = none) := by
  simp [App]

/-- No operation makes `loading` true once it is false. -/
theorem step_loading (J : Json) (w : World) (a : Action) (h : w.session.loading = false) :
    (step J w a).session.loading = false := by
  cases a with
  | init => exact initAuth_loading J w
  | login token user => simpa [step, login] using h
  | logout => simpa [step, logout] using h

/-- Along every sequence of operations `loading` stays false. -/
theorem foldl_loading (J : Json) (actions : List Action) (w : World)
    (h : w.session.loading = false) :
    (actions.foldl (step J) w).session.loading = false := by
  induction actions generalizing w with
  | nil => exact h
  | cons a rest ih => exact ih (step J w a) (step_loading J w a h)

/-- C19: `loading` is true in the constructed state, and in every run, once the mount effect
has completed, `loading` is false after every further sequence of `login`, `logout` (and
mount effect) operations. -/
theorem loading_false_after_init (J : Json) (store : Storage) (before after : List Action) :
    (run J store []).session.loading = true
      ∧ (run J store (before ++ Action.init :: after)).session.loading = false := by
  refine ⟨rfl, ?_⟩
  simp only [run, List.foldl_append, List.foldl_cons]
  exact foldl_loading J after _ (initAuth_loading J _)

/-- The mount effect keeps the binding invariant. -/
theorem initAuth_bound (J : Json) (w : World) (h : Bound w) : Bound (initAuth J w) := by
  by_cases hg : (truthy (w.store.getItem Key.token) && truthy (w.store.getItem Key.user)) = true
  · obtain ⟨t, ht⟩ : ∃ t, w.store.getItem Key.token = some t := by
      cases hs : w.store.getItem Key.token with
      | none => simp [hs, truthy] at hg
      | some t => exact ⟨t, rfl⟩
    have hg1 : (truthy (some t) && truthy (w.store.getItem Key.user)) = true := by
      rw [← ht]; exact hg
    cases hp : J.parse ((w.store.getItem Key.user).getD "") with
    | threw =>
      have e : initAuth J w
          = { session := { w.session with token := some t, loading := false }
              store := (w.store.removeItem Key.token).removeItem Key.user
              authorization := w.authorization } := by
        simp only [initAuth, ht, hg1, hp, if_true]
      rw [e]
      intro hu
      obtain ⟨⟨t0, htok, hauth⟩, hstore⟩ := h hu
      have ht0 : t0 = t := by
        rcases hstore with hn | he
        · rw [ht] at hn; cases hn
        · rw [ht, htok] at he; cases he; rfl
      subst ht0
      exact ⟨⟨t0, rfl, hauth⟩, Or.inl rfl⟩
    | value u =>
      have e : initAuth J w
          = { session := { user := u, token := some t, loading := false }
              store := w.store
              authorization := some ("Bearer " ++ t) } := by
        simp only [initAuth, ht, hg1, hp, if_true, Option.getD_some]
      rw [e]
      intro _
      exact ⟨⟨t, rfl, rfl⟩, Or.inr ht⟩
  · have e : initAuth J w = { w with session := { w.session with loading := false } } := by
      simp only [initAuth, hg]
      rfl
    rw [e]
    exact h

/-- Every operation keeps the binding invariant. -/
theorem step_bound (J : Json) (w : World) (a : Action) (h : Bound w) : Bound (step J w a) := by
  cases a with
  | init => exact initAuth_bound J w h
  | login token user =>
    intro _
    exact ⟨⟨token, rfl, rfl⟩, Or.inr rfl⟩
  | logout =>
    intro hu
    simp [step, logout] at hu

/-- The binding invariant holds in every reachable state. -/
theorem run_bound (J : Json) (store : Storage) (actions : List Action) :
    Bound (run J store actions) := by
  have key : ∀ (w : World), Bound w → Bound (actions.foldl (step J) w) := by
    induction actions with
    | nil => intro w h; exact h
    | cons a rest ih => intro w h; exact ih (step J w a) (step_bound J w a h)
  exact key (App store) (fun hu => by simp [App] at hu)

/-- C20: in every reachable state (construction, then the mount effect, `login` and `logout`
in any order) in which `ProtectedRoute` returns children for some route, `loading` is false
and the `Authorization` binding is `Bearer ` followed by the token of the session. -/
theorem render_implies_header_bound {α : Type} (J : Json) (store : Storage)
    (actions : List Action) (children rendered : α) (requireAdmin : Option Bool)
    (hrender : ProtectedRoute (run J store actions).session children requireAdmin
      = Element.children rendered) :
    (run J store actions).session.loading = false
      ∧ ∃ t, (run J store actions).session.token = some t
          ∧ (run J store actions).authorization = some ("Bearer " ++ t) := by
  have hb := run_bound J store actions
  generalize run J store actions = w at hrender hb
  cases hl : w.session.loading with
  | true => simp [ProtectedRoute, hl] at hrender
  | false =>
    cases hu : w.session.user with
    | none => simp [ProtectedRoute, hl, hu] at hrender
    | some u => exact ⟨rfl, (hb (by simp [hu])).1⟩

/-- After the mount effect and a login over an empty store, the dashboard route renders. -/
theorem render_implies_header_bound_witness :
    (run sampleJson { token := none, user := none }
        [Action.init, Action.login "abc123" alice]).session.loading = false
      ∧ ∃ t, (run sampleJson { token := none, user := none }
            [Action.init, Action.login "abc123" alice]).session.token = some t
          ∧ (run sampleJson { token := none, user := none }
            [Action.init, Action.login "abc123" alice]).authorization
              = some ("Bearer " ++ t) :=
  render_implies_header_bound sampleJson { token := none, user := none }
    [Action.init, Action.login "abc123" alice] "Dashboard" "Dashboard" none (by decide)

/-! ## Views: theorems -/

/-- C25: `useAuth` returns the provided context unchanged, and throws the error
`useAuth must be used within AuthProvider` exactly when no context is provided. -/
theorem useAuth_spec {α : Type} (context : Option α) :
    (∀ c : α, context = some c ↔ useAuth context = Except.ok c)
      ∧ (context = none
          ↔ useAuth context = Except.error "useAuth must be used within AuthProvider")
      ∧ (context = none ↔ ∃ e, useAuth context = Except.error e) := by
  cases context with
  | none => simp [useAuth]
  | some c => simp [useAuth]

/-- C30: the page number starts at 1, Next maps `p` to `p + 1` and Previous maps `p` to
`max(1, p - 1)`, each click applying its map to the current page; the page is at least 1
after every sequence of clicks; Previous at page 1 leaves the page at 1, and Previous after
Next returns to the same page. -/
theorem page_at_least_one (clicks : List PageClick) (p : Int) (c : PageClick) :
    pageAfter [] = 1
      ∧ setPage p PageClick.next = p + 1
      ∧ setPage p PageClick.previous = max 1 (p - 1)
      ∧ pageAfter (clicks ++ [c]) = setPage (pageAfter clicks) c
      ∧ 1 ≤ pageAfter clicks
      ∧ setPage 1 PageClick.previous = 1
      ∧ setPage (setPage (pageAfter clicks) PageClick.next) PageClick.previous
          = pageAfter clicks := by
  have key : ∀ (cs : List PageClick) (q : Int), 1 ≤ q → 1 ≤ cs.foldl setPage q := by
    intro cs
    induction cs with
    | nil => intro q hq; exact hq
    | cons d rest ih =>
      intro q hq
      apply ih
      cases d with
      | previous => exact le_max_left 1 (q - 1)
      | next => simp only [setPage]; omega
  have h1 : 1 ≤ pageAfter clicks := key clicks initialPage (le_refl 1)
  refine ⟨rfl, rfl, rfl, by simp [pageAfter, List.foldl_append], h1, by decide, ?_⟩
  simp only [setPage]
  rw [max_eq_right] <;> omega

/-- C22: in every session state the routes `/login` and `/register` redirect to `/dashboard`
when a user is present, and render the login page, respectively the registration page, when
no user is present. -/
theorem guest_routes_spec (s : Session) :
    (routes.lookup "/login").map (RouteElement.render s)
        = some (if s.user.isSome then Element.navigate "/dashboard" false
            else Element.children Page.Login)
      ∧ (routes.lookup "/register").map (RouteElement.render s)
        = some (if s.user.isSome then Element.navigate "/dashboard" false
            else Element.children Page.Register) := by
  have h1 : routes.lookup "/login" = some (RouteElement.guestOnly Page.Login) := by decide
  have h2 : routes.lookup "/register" = some (RouteElement.guestOnly Page.Register) := by
    decide
  rw [h1, h2]
  cases hu : s.user <;> simp [RouteElement.render, hu]

/-- C23: in the route table the routes other than `/`, `/register` and `/login` are exactly
`/dashboard`, `/transactions`, `/blockchain`, `/block/:blockId`, `/admin`, `/about` and
`/contact`; each of them is wrapped in `ProtectedRoute`, with `requireAdmin` true for `/admin`
only; and a route that does not pass `requireAdmin` is guarded as with `requireAdmin = false`. -/
theorem route_table_gates :
    routes.map (fun r => (r.1, r.2.gate))
        = [ ("/", none), ("/register", none), ("/login", none),
            ("/dashboard", some false), ("/transactions", some false),
            ("/blockchain", some false), ("/block/:blockId", some false),
            ("/admin", some true), ("/about", some false), ("/contact", some false) ]
      ∧ (∀ r ∈ routes, r.1 ∉ ["/", "/register", "/login"] →
          (∃ requireAdmin page, r.2 = RouteElement.guarded requireAdmin page)
            ∧ (r.2.gate = some true ↔ r.1 = "/admin"))
      ∧ (∀ (s : Session) (page : Page),
          (RouteElement.guarded none page).render s = ProtectedRoute s page (some false)) := by
  refine ⟨by decide, ?_, fun s page => rfl⟩
  intro r hr hguest
  simp only [routes, List.mem_cons, List.mem_singleton, List.not_mem_nil, or_false] at hr
  rcases hr with rfl | rfl | rfl | rfl | rfl | rfl | rfl | rfl | rfl | rfl
  · exact absurd (by decide) hguest
  · exact absurd (by decide) hguest
  · exact absurd (by decide) hguest
  · exact ⟨⟨none, Page.Dashboard, rfl⟩, by decide⟩
  · exact ⟨⟨none, Page.Transactions, rfl⟩, by decide⟩
  · exact ⟨⟨none, Page.Blockchain, rfl⟩, by decide⟩
  · exact ⟨⟨none, Page.BlockDetail, rfl⟩, by decide⟩
  · exact ⟨⟨some true, Page.AdminDashboard, rfl⟩, by decide⟩
  · exact ⟨⟨none, Page.About, rfl⟩, by decide⟩
  · exact ⟨⟨none, Page.Contact, rfl⟩, by decide⟩

/-- The route `/login` shows the login page in every session without a user. -/
theorem follow_login (s : Session) (n : Nat) (hu : s.user = none) :
    follow s n "/login" = some Page.Login := by
  have h : routes.lookup "/login" = some (RouteElement.guestOnly Page.Login) := by decide
  cases n <;> simp [follow, h, RouteElement.render, hu]

/-- The route `/dashboard` shows the dashboard in every resolved session with a user. -/
theorem follow_dashboard (s : Session) (n : Nat) (u : User) (hl : s.loading = false)
    (hu : s.user = some u) : follow s n "/dashboard" = some Page.Dashboard := by
  have h : routes.lookup "/dashboard" = some (RouteElement.guarded none Page.Dashboard) := by
    decide
  cases n <;> simp [follow, h, RouteElement.render, ProtectedRoute, hl, hu]

/-- One unfolding of `follow` when a redirect is still allowed. -/
theorem follow_succ (s : Session) (n : Nat) (path : String) :
    follow s (n + 1) path
      = match routes.lookup path with
        | none => none
        | some e =>
          match e.render s with
          | Element.children page => some page
          | Element.loadingView => none
          | Element.navigate target _ => follow s n target := by
  rw [follow]

/-- What a guarded route shows in a resolved session, following one redirect. -/
theorem follow_guarded (s : Session) (path : String) (requireAdmin : Option Bool)
    (page : Page) (hl : s.loading = false)
    (hroute : routes.lookup path = some (RouteElement.guarded requireAdmin page)) :
    (follow s 1 path).isSome = true := by
  rw [follow_succ, hroute]
  cases hu : s.user with
  | none =>
    have h := follow_login s 0 hu
    simp [RouteElement.render, ProtectedRoute, hl, hu, h]
  | some u =>
    have h := follow_dashboard s 0 u hl hu
    by_cases hg : (requireAdmin.getD false && u.role != "admin") = true
    · simp only [RouteElement.render, ProtectedRoute, hl, hu, hg]
      simp [h]
    · simp only [RouteElement.render, ProtectedRoute, hl, hu, hg]
      simp

/-- What a guest-only route shows in a resolved session, following one redirect. -/
theorem follow_guestOnly (s : Session) (path : String) (page : Page) (hl : s.loading = false)
    (hroute : routes.lookup path = some (RouteElement.guestOnly page)) :
    (follow s 1 path).isSome = true := by
  cases hu : s.user with
  | none => simp [follow, hroute, RouteElement.render, hu]
  | some u =>
    have h := follow_dashboard s 0 u hl hu
    simp [follow, hroute, RouteElement.render, hu, h]

/-- C26: redirects never loop: in every resolved session (`loading = false`), from every
route of the table, following at most one redirect reaches a rendered page. -/
theorem redirects_settle (s : Session) (r : String × RouteElement) (hl : s.loading = false)
    (hr : r ∈ routes) : (follow s 1 r.1).isSome = true := by
  simp only [routes, List.mem_cons, List.mem_singleton, List.not_mem_nil, or_false] at hr
  rcases hr with rfl | rfl | rfl | rfl | rfl | rfl | rfl | rfl | rfl | rfl
  · have hroute : routes.lookup "/" = some RouteElement.root := by decide
    cases hu : s.user with
    | none => simp [follow, hroute, RouteElement.render, hl, hu]
    | some u =>
      have h := follow_dashboard s 0 u hl hu
      simp [follow, hroute, RouteElement.render, hl, hu, h]
  · exact follow_guestOnly s _ Page.Register hl (by decide)
  · exact follow_guestOnly s _ Page.Login hl (by decide)
  · exact follow_guarded s _ none Page.Dashboard hl (by decide)
  · exact follow_guarded s _ none Page.Transactions hl (by decide)
  · exact follow_guarded s _ none Page.Blockchain hl (by decide)
  · exact follow_guarded s _ none Page.BlockDetail hl (by decide)
  · exact follow_guarded s _ (some true) Page.AdminDashboard hl (by decide)
  · exact follow_guarded s _ none Page.About hl (by decide)
  · exact follow_guarded s _ none Page.Contact hl (by decide)

/-- A resolved session of a user with the role `user`, at the route `/admin`: one redirect,
to the dashboard. -/
theorem redirects_settle_witness :
    (follow { user := some alice, token := some "abc123", loading := false } 1
      ("/admin", RouteElement.guarded (some true) Page.AdminDashboard).1).isSome = true :=
  redirects_settle { user := some alice, token := some "abc123", loading := false }
    ("/admin", RouteElement.guarded (some true) Page.AdminDashboard) rfl (by decide)

/-- C27: the navigation bar lists the `/admin` link exactly when the role of the user is
`admin`, which is exactly when `ProtectedRoute` renders the `/admin` route for that user in a
resolved session; when listed it is the fourth link, between Blockchain and About; and the
links Dashboard, Transactions, Blockchain, About, Contact are always present in that order. -/
theorem navLinks_spec (user : Option User) (token : Option String) :
    (adminLink ∈ navLinks user ↔ user.map User.role = some "admin")
      ∧ (ProtectedRoute { user := user, token := token, loading := false }
            Page.AdminDashboard (some true) = Element.children Page.AdminDashboard
          ↔ adminLink ∈ navLinks user)
      ∧ (navLinks user).map NavLink.label
          = (if user.map User.role = some "admin" then
              ["Dashboard", "Transactions", "Blockchain", "Admin", "About", "Contact"]
            else ["Dashboard", "Transactions", "Blockchain", "About", "Contact"])
      ∧ ((navLinks user).filter (fun l => l.path != "/admin")).map NavLink.path
          = ["/dashboard", "/transactions", "/blockchain", "/about", "/contact"] := by
  by_cases h : user.map User.role = some "admin"
  · have hlinks : navLinks user
        = [ { path := "/dashboard", label := "Dashboard", icon := "Home" },
            { path := "/transactions", label := "Transactions", icon := "Send" },
            { path := "/blockchain", label := "Blockchain", icon := "Layers" },
            adminLink,
            { path := "/about", label := "About", icon := "Info" },
            { path := "/contact", label := "Contact", icon := "Phone" } ] := by
      simp [navLinks, h, splice]
    obtain ⟨u, rfl, hrole⟩ : ∃ u, user = some u ∧ u.role = "admin" := by
      cases user with
      | none => simp at h
      | some u => exact ⟨u, rfl, by simpa using h⟩
    rw [hlinks]
    refine ⟨?_, ?_, ?_, by decide⟩
    · simp [hrole]
    · simp [ProtectedRoute, hrole]
    · simp [hrole, adminLink]
  · have hlinks : navLinks user
        = [ { path := "/dashboard", label := "Dashboard", icon := "Home" },
            { path := "/transactions", label := "Transactions", icon := "Send" },
            { path := "/blockchain", label := "Blockchain", icon := "Layers" },
            { path := "/about", label := "About", icon := "Info" },
            { path := "/contact", label := "Contact", icon := "Phone" } ] := by
      simp [navLinks, h]
    have hnot : adminLink ∉ navLinks user := by rw [hlinks]; decide
    refine ⟨?_, ?_, ?_, ?_⟩
    · simp [hnot, h]
    · cases user with
      | none => simp [ProtectedRoute, hnot]
      | some u =>
        have hrole : u.role ≠ "admin" := by simpa using h
        simp [ProtectedRoute, hrole, hnot]
    · rw [hlinks]; simp [h]
    · rw [hlinks]; decide

/-- C21, as stated, fails over a store that holds only a token entry: after construction and
the mount effect the in-memory token is present and no `Authorization` header is bound. -/
theorem token_without_header :
    (run sampleJson { token := some "abc123", user := none } [Action.init]).session.token
        = some "abc123"
      ∧ (run sampleJson { token := some "abc123", user := none } [Action.init]).authorization
        = none := by
  decide

/-- C21, amended: in every reachable session state, whenever the in-memory user is present,
the in-memory token is present and the `Authorization` binding is `Bearer ` followed by that
token; and after `logout` the binding is absent. -/
theorem reachable_user_implies_header (J : Json) (store : Storage) (actions : List Action) :
    ((run J store actions).session.user.isSome = true →
        ∃ t, (run J store actions).session.token = some t
          ∧ (run J store actions).authorization = some ("Bearer " ++ t))
      ∧ (run J store (actions ++ [Action.logout])).authorization = none := by
  refine ⟨fun hu => (run_bound J store actions hu).1, ?_⟩
  simp [run, List.foldl_append, step, logout]

/-- After the mount effect and a login over an empty store the header is bound to the token of
the session, and a logout unbinds it. -/
theorem reachable_user_implies_header_witness :
    (∃ t, (run sampleJson { token := none, user := none }
            [Action.init, Action.login "abc123" alice]).session.token = some t
          ∧ (run sampleJson { token := none, user := none }
            [Action.init, Action.login "abc123" alice]).authorization
              = some ("Bearer " ++ t))
      ∧ (run sampleJson { token := none, user := none }
          ([Action.init, Action.login "abc123" alice] ++ [Action.logout])).authorization
        = none :=
  ⟨(reachable_user_implies_header sampleJson { token := none, user := none }
      [Action.init, Action.login "abc123" alice]).1 (by decide),
    (reachable_user_implies_header sampleJson { token := none, user := none }
      [Action.init, Action.login "abc123" alice]).2⟩

/-- C24, as stated, fails: `Dashboard.fetchData` reads the token entry of the store. Two
states with the same session and the same header binding, whose token entries differ, issue
different requests. -/
theorem dashboard_requests_depend_on_store :
    (login sampleJson (App { token := none, user := none }) "abc123" alice).session
        = ({ login sampleJson (App { token := none, user := none }) "abc123" alice with
            store := { token := some "other-token", user := none } } : World).session
      ∧ (login sampleJson (App { token := none, user := none }) "abc123" alice).authorization
        = ({ login sampleJson (App { token := none, user := none }) "abc123" alice with
            store := { token := some "other-token", user := none } } : World).authorization
      ∧ (Dashboard.fetchData "/api"
            (login sampleJson (App { token := none, user := none }) "abc123" alice) none).map
          HttpRequest.authorization
        = [some "Bearer abc123", some "Bearer abc123", some "Bearer abc123",
            some "Bearer abc123"]
      ∧ (Dashboard.fetchData "/api"
            { login sampleJson (App { token := none, user := none }) "abc123" alice with
              store := { token := some "other-token", user := none } } none).map
          HttpRequest.authorization
        = [some "Bearer other-token", some "Bearer other-token", some "Bearer other-token",
            some "Bearer other-token"] := by
  decide

/-- A request of the transactions page carries the header binding. -/
theorem Request.send_authorization (API : String) (w : World) (r : Request) :
    (Request.send API w r).authorization = w.authorization := by
  cases r <;> rfl

/-- A request of the transactions page does not depend on the store or on the session. -/
theorem Request.send_frame (API : String) (w : World) (store : Storage) (session : Session)
    (r : Request) :
    Request.send API { w with store := store, session := session } r = Request.send API w r := by
  cases r <;> rfl

/-- C24, amended: a view operation leaves the store, the header binding and the session as
they were, unless it is the login page calling `login` or the logout button calling `logout`:
the store is written only through the session controller. The operations of `Transactions`
(including the balance, sign and create requests), `Blockchain`, `BlockDetail`, `Contact` and
the login page do not read the store: their requests stay the same when the store and the
session are replaced, and they carry the header binding. The operations of `Dashboard` and
`AdminDashboard` (fetches, approval, validation) read the token entry: each of their
requests carries `Bearer ` followed by the stored token when that entry is non-empty, and the
header binding otherwise. -/
theorem view_requests_frame (J : Json) (API : String) (w : World) (op : ViewOperation) :
    ((op.perform J API w).2 = w
        ∨ (∃ t u, op = ViewOperation.loginSubmit (some (t, u))
            ∧ (op.perform J API w).2 = login J w t u)
        ∨ (op = ViewOperation.navigationLogout ∧ (op.perform J API w).2 = logout w))
      ∧ (op.readsToken = false →
          (∀ (store : Storage) (session : Session),
            (op.perform J API { w with store := store, session := session }).1
              = (op.perform J API w).1)
          ∧ (op.perform J API w).1.all (fun r => r.authorization = w.authorization) = true)
      ∧ (op.readsToken = true →
          (op.perform J API w).1.all
            (fun r => r.authorization
              = if truthy (w.store.getItem Key.token) then
                  some ("Bearer " ++ (w.store.getItem Key.token).getD "")
                else w.authorization) = true) := by
  cases op with
  | dashboardFetchData firstWallet =>
    refine ⟨Or.inl rfl, fun h => (by cases h), fun _ => ?_⟩
    cases firstWallet <;> by_cases h : truthy (w.store.getItem Key.token) = true <;>
      simp [ViewOperation.perform, Dashboard.fetchData, Dashboard.headers, axiosRequest, h]
  | adminFetchData =>
    refine ⟨Or.inl rfl, fun h => (by cases h), fun _ => ?_⟩
    by_cases h : truthy (w.store.getItem Key.token) = true <;>
      simp [ViewOperation.perform, AdminDashboard.fetchData, AdminDashboard.getAuthHeaders,
        axiosRequest, h]
  | adminFetchNotifications =>
    refine ⟨Or.inl rfl, fun h => (by cases h), fun _ => ?_⟩
    by_cases h : truthy (w.store.getItem Key.token) = true <;>
      simp [ViewOperation.perform, AdminDashboard.fetchNotifications,
        AdminDashboard.getAuthHeaders, axiosRequest, h]
  | adminApproveTransactions succeeded =>
    refine ⟨Or.inl rfl, fun h => (by cases h), fun _ => ?_⟩
    cases succeeded <;> by_cases h : truthy (w.store.getItem Key.token) = true <;>
      simp [ViewOperation.perform, AdminDashboard.approveTransactions,
        AdminDashboard.fetchData, AdminDashboard.getAuthHeaders, axiosRequest, h]
  | adminValidateBlockchain =>
    refine ⟨Or.inl rfl, fun h => (by cases h), fun _ => ?_⟩
    by_cases h : truthy (w.store.getItem Key.token) = true <;>
      simp [ViewOperation.perform, AdminDashboard.validateBlockchain,
        AdminDashboard.getAuthHeaders, axiosRequest, h]
  | transactionsFetchData =>
    refine ⟨Or.inl rfl, fun _ => ⟨fun _ _ => rfl, ?_⟩, fun h => by cases h⟩
    simp [ViewOperation.perform, Transactions.fetchData, axiosRequest]
  | transactionsSend O wallets sendForm =>
    refine ⟨Or.inl rfl, fun _ => ⟨fun store session => ?_, ?_⟩, fun h => by cases h⟩
    · simp only [ViewOperation.perform]
      exact List.map_congr_left (fun r _ => Request.send_frame API w store session r)
    · simp [ViewOperation.perform, List.all_map, Request.send_authorization]
  | blockchainFetchBlocks page =>
    refine ⟨Or.inl rfl, fun _ => ⟨fun _ _ => rfl, ?_⟩, fun h => by cases h⟩
    simp [ViewOperation.perform, Blockchain.fetchBlocks, axiosRequest]
  | blockDetailFetch blockId =>
    refine ⟨Or.inl rfl, fun _ => ⟨fun _ _ => rfl, ?_⟩, fun h => by cases h⟩
    simp [ViewOperation.perform, BlockDetail.fetchBlockDetail, axiosRequest]
  | blockDetailVerify =>
    refine ⟨Or.inl rfl, fun _ => ⟨fun _ _ => rfl, ?_⟩, fun h => by cases h⟩
    simp [ViewOperation.perform, BlockDetail.verifyBlock, axiosRequest]
  | contactSubmit =>
    refine ⟨Or.inl rfl, fun _ => ⟨fun _ _ => rfl, ?_⟩, fun h => by cases h⟩
    simp [ViewOperation.perform, Contact.handleSubmit, axiosRequest]
  | loginSubmit response =>
    refine ⟨?_, fun _ => ⟨fun _ _ => rfl, ?_⟩, fun h => by cases h⟩
    · cases response with
      | none => exact Or.inl rfl
      | some pair => exact Or.inr (Or.inl ⟨pair.1, pair.2, rfl, rfl⟩)
    · simp [ViewOperation.perform, axiosRequest]
  | navigationLogout =>
    refine ⟨Or.inr (Or.inr ⟨rfl, rfl⟩), fun _ => ⟨fun _ _ => rfl, ?_⟩, fun h => by cases h⟩
    simp [ViewOperation.perform]

/-- C28: for the name `Al`, the email `al@example.com` and a message of two lines, the admin
dashboard parses the notification text into the right name and email but only the first line
of the message: the group `(.+)` stops at the line break. -/
theorem parseContact_truncates_multiline :
    parseContact (contactText "Al" "al@example.com" "line one\nline two")
      = some ("Al", "al@example.com", "line one") := by
  decide

/-- For a number that is not `NaN`, `a <= 0` fails exactly when `0 < a`. -/
theorem JsNumber.not_le_zero (a : JsNumber) (h : a ≠ JsNumber.nan) :
    a.le (JsNumber.finite 0) = false ↔ (JsNumber.finite 0).lt a = true := by
  cases a with
  | nan => exact absurd rfl h
  | negInf => simp [JsNumber.le, JsNumber.lt]
  | finite q => simp [JsNumber.le, JsNumber.lt]
  | posInf => simp [JsNumber.le, JsNumber.lt]

/-- For two numbers that are not `NaN`, `b < a` fails exactly when `a <= b`. -/
theorem JsNumber.not_lt (a b : JsNumber) (ha : a ≠ JsNumber.nan) (hb : b ≠ JsNumber.nan) :
    b.lt a = false ↔ a.le b = true := by
  cases a <;> cases b <;> first
    | exact absurd rfl ha
    | exact absurd rfl hb
    | simp [JsNumber.le, JsNumber.lt]

/-- C29: for every form input (the amount text is a value of the number input) and every
numeric balance answer, `handleSendTransaction` issues the sign or the create request only
if a wallet exists, both fields are non-empty, the parsed amount is strictly greater than 0
and the fetched balance is at least that amount, and it does issue the sign request then; for
every other form input it issues neither. The checks come in that order, each with its own
message: no wallet; an empty field; an amount not above 0; a balance below the amount (after
the balance request only). -/
theorem sendTransaction_guard (O : Outside) (wallets : List Wallet) (sendForm : SendForm)
    (hamount : isNumberInputValue O.parseFloat sendForm.amount = true)
    (hbalance : O.balance ≠ Except.ok JsNumber.nan) :
    ((handleSendTransaction O wallets sendForm).requests.any Request.isSignOrCreate = true
        ↔ wallets ≠ [] ∧ sendForm.receiverWallet ≠ "" ∧ sendForm.amount ≠ ""
          ∧ (JsNumber.finite 0).lt (O.parseFloat sendForm.amount) = true
          ∧ ∃ b, O.balance = Except.ok b
              ∧ (O.parseFloat sendForm.amount).le b = true)
      ∧ (wallets = [] →
          handleSendTransaction O wallets sendForm
            = { requests := [], toasts := [Toast.error "No wallet found"] })
      ∧ (wallets ≠ [] → sendForm.receiverWallet = "" ∨ sendForm.amount = "" →
          handleSendTransaction O wallets sendForm
            = { requests := [], toasts := [Toast.error "Please fill all fields"] })
      ∧ (wallets ≠ [] → sendForm.receiverWallet ≠ "" → sendForm.amount ≠ "" →
          (JsNumber.finite 0).lt (O.parseFloat sendForm.amount) = false →
          handleSendTransaction O wallets sendForm
            = { requests := [], toasts := [Toast.error "Amount must be greater than 0"] })
      ∧ (∀ (wallet : Wallet) (rest : List Wallet) (b : JsNumber), wallets = wallet :: rest →
          sendForm.receiverWallet ≠ "" → sendForm.amount ≠ "" →
          (JsNumber.finite 0).lt (O.parseFloat sendForm.amount) = true →
          O.balance = Except.ok b →
          (O.parseFloat sendForm.amount).le b = false →
          handleSendTransaction O wallets sendForm
            = { requests := [Request.getBalance wallet.wallet_address]
                toasts := [Toast.error "Insufficient balance"] }) := by
  cases wallets with
  | nil => simp [handleSendTransaction]
  | cons wallet rest =>
    by_cases hfields : sendForm.receiverWallet = "" ∨ sendForm.amount = ""
    · have hne : ¬ (sendForm.receiverWallet ≠ "" ∧ sendForm.amount ≠ "") := by tauto
      refine ⟨?_, by simp, ?_, ?_, ?_⟩
      · simp only [handleSendTransaction, hfields, if_true, List.any_nil]
        constructor
        · intro h; cases h
        · intro h; exact absurd ⟨h.2.1, h.2.2.1⟩ hne
      · intro _ _; simp [handleSendTransaction, hfields]
      · intro _ h1 h2; exact absurd ⟨h1, h2⟩ hne
      · intro _ _ _ _ h1 h2; exact absurd ⟨h1, h2⟩ hne
    · have hr : sendForm.receiverWallet ≠ "" := fun h => hfields (Or.inl h)
      have ha : sendForm.amount ≠ "" := fun h => hfields (Or.inr h)
      have hnum : O.parseFloat sendForm.amount ≠ JsNumber.nan := by
        intro hnan
        simp [isNumberInputValue, ha, hnan, JsNumber.isFinite] at hamount
      have hzero := JsNumber.not_le_zero (O.parseFloat sendForm.amount) hnum
      cases hle : (O.parseFloat sendForm.amount).le (JsNumber.finite 0) with
      | true =>
        have hlt : (JsNumber.finite 0).lt (O.parseFloat sendForm.amount) = false := by
          cases h : (JsNumber.finite 0).lt (O.parseFloat sendForm.amount) with
          | false => rfl
          | true => rw [hzero.mpr h] at hle; cases hle
        refine ⟨?_, by simp, ?_, ?_, ?_⟩
        · simp [handleSendTransaction, hfields, hle, hlt]
        · intro _ h; exact absurd h hfields
        · intro _ _ _ _; simp [handleSendTransaction, hfields, hle]
        · intro _ _ _ _ _ _ h; rw [hlt] at h; cases h
      | false =>
        have hlt : (JsNumber.finite 0).lt (O.parseFloat sendForm.amount) = true :=
          hzero.mp hle
        cases hbal : O.balance with
        | error detail =>
          refine ⟨?_, by simp, ?_, ?_, ?_⟩
          · simp [handleSendTransaction, hfields, hle, hbal, Request.isSignOrCreate]
          · intro _ h; exact absurd h hfields
          · intro _ _ _ h; rw [hlt] at h; cases h
          · intro _ _ b _ _ _ _ h; cases h
        | ok balance =>
          have hbnum : balance ≠ JsNumber.nan := by
            intro hnan
            exact hbalance (by rw [hbal, hnan])
          have hcompare := JsNumber.not_lt (O.parseFloat sendForm.amount) balance hnum hbnum
          cases hins : balance.lt (O.parseFloat sendForm.amount) with
          | true =>
            have hnle : (O.parseFloat sendForm.amount).le balance = false := by
              cases h : (O.parseFloat sendForm.amount).le balance with
              | false => rfl
              | true => rw [hcompare.mpr h] at hins; cases hins
            refine ⟨?_, by simp, ?_, ?_, ?_⟩
            · simp only [handleSendTransaction, hfields, hle, hbal, hins, if_true, if_false]
              constructor
              · intro h; simp [Request.isSignOrCreate] at h
              · rintro ⟨_, _, _, _, b, hb, hble⟩
                cases hb
                rw [hnle] at hble; cases hble
            · intro _ h; exact absurd h hfields
            · intro _ _ _ h; rw [hlt] at h; cases h
            · intro w' rest' b hw _ _ _ hb _
              cases hw
              simp [handleSendTransaction, hfields, hle, hbal, hins]
          | false =>
            have hok : (O.parseFloat sendForm.amount).le balance = true :=
              hcompare.mp hins
            refine ⟨?_, by simp, ?_, ?_, ?_⟩
            · have hissued : (handleSendTransaction O (wallet :: rest) sendForm).requests.any
                  Request.isSignOrCreate = true := by
                simp only [handleSendTransaction, hfields, hle, hbal, hins, if_false]
                cases O.sign with
                | error d => simp [Request.isSignOrCreate]
                | ok sig =>
                  cases O.create with
                  | error d => simp [Request.isSignOrCreate]
                  | ok u => simp [Request.isSignOrCreate]
              constructor
              · intro _
                exact ⟨by simp, hr, ha, hlt, balance, rfl, hok⟩
              · intro _; exact hissued
            · intro _ h; exact absurd h hfields
            · intro _ _ _ h; rw [hlt] at h; cases h
            · intro _ _ b _ _ _ _ hb h
              cases hb
              rw [hok] at h; cases h

/-- A wallet, both fields filled, the amount 25 and the balance 100: the hypotheses hold and
the sign request is issued. -/
theorem sendTransaction_guard_witness :
    isNumberInputValue sampleOutside.parseFloat "25" = true
      ∧ sampleOutside.balance ≠ Except.ok JsNumber.nan
      ∧ (handleSendTransaction sampleOutside [{ wallet_address := "wallet-a" }]
          { receiverWallet := "wallet-b", amount := "25" }).requests.any
            Request.isSignOrCreate = true :=
  ⟨by decide, by simp [sampleOutside],
    (sendTransaction_guard sampleOutside [{ wallet_address := "wallet-a" }]
      { receiverWallet := "wallet-b", amount := "25" } (by decide)
      (by simp [sampleOutside])).1.mpr
      ⟨by decide, by decide, by decide, by decide, JsNumber.finite 100, rfl, by decide⟩⟩

end BlockBank
